import Mathlib

/-!
Shallow embedding of the serial command/response engine of `rusty_meter`
(`src/app/serial.rs`, `spawn_serial_task`, together with the enums of
`src/multimeter.rs`).  Strings are modelled by Lean `String` / `List Char`,
the queue by `List String`, and the event loop by an explicit step function
over an environment-input trace.
-/

namespace RustyMeter

/-- Enum `MeterMode` from `src/multimeter.rs`. -/
inductive MeterMode
  | Vdc | Vac | Adc | Aac | Res | Cap | Freq | Per | Diod | Cont | Temp
deriving DecidableEq, Repr

/-- Enum `ScpiMode` from `src/multimeter.rs`. -/
inductive ScpiMode
  | Idn
  | Meas
deriving DecidableEq, Repr

/-- Rust `str::trim_end` (drop trailing whitespace), on character lists. -/
def trimEndChars (l : List Char) : List Char :=
  (l.reverse.dropWhile Char.isWhitespace).reverse

/-- Rust `str::ends_with("\r\n")`. -/
def endsWithCRLF (s : String) : Bool :=
  match s.toList.reverse with
  | '\n' :: '\r' :: _ => true
  | _ => false

/-- Rust `str::trim_matches('"')`: strip quote characters from both ends. -/
def trimQuotesChars (l : List Char) : List Char :=
  ((l.dropWhile (· = '"')).reverse.dropWhile (· = '"')).reverse

/-- Rust `str::split(c)`: split at every occurrence of `c`, keeping empty
pieces (`"a,,b"` gives three pieces). -/
def splitOnChar (c : Char) : List Char → List (List Char)
  | [] => [[]]
  | x :: xs =>
    if x = c then [] :: splitOnChar c xs
    else
      match splitOnChar c xs with
      | h :: t => (x :: h) :: t
      | [] => [[x]]

/-- Numeric value of a digit string (most significant digit first). -/
def digitsToNat (l : List Char) : Nat :=
  l.foldl (fun a c => a * 10 + (c.toNat - '0'.toNat)) 0

/-- Rust `str::parse::<u32>()`: optional leading `+`, then one or more ASCII
digits, failing on overflow past `u32::MAX`. -/
def parseU32 (l : List Char) : Option Nat :=
  let body := match l with
    | '+' :: rest => rest
    | _ => l
  if body ≠ [] ∧ body.all Char.isDigit then
    if digitsToNat body < 2 ^ 32 then some (digitsToNat body) else none
  else none

/-- The model guard of serial.rs line 207: `XDM1041` or `XDM1241`. -/
def xdmModel (m : List Char) : Bool :=
  m = "XDM1041".toList ∨ m = "XDM1241".toList

/-- serial.rs lines 204-224: derive the DIOD/CONT swap quirk from the trimmed
`*IDN?` reply.  Split on `,`; require at least 4 fields, manufacturer `OWON`
and an affected model; strip leading `V` from the fourth field and split it on
`.`; when major and minor parse as `u32`, the swap flag becomes
`major < 4 or (major == 4 and minor < 3)`, otherwise it keeps its old value. -/
def computeSwap (trimmed : List Char) (old : Bool) : Bool :=
  match splitOnChar ',' trimmed with
  | p0 :: p1 :: _p2 :: p3 :: _moreParts =>
    if p0 = "OWON".toList ∧ xdmModel p1 then
      match splitOnChar '.' (p3.dropWhile (· = 'V')) with
      | v0 :: v1 :: _v2 :: _moreVersion =>
        match parseU32 v0, parseU32 v1 with
        | some major, some minor => decide (major < 4 ∨ (major = 4 ∧ minor < 3))
        | _, _ => old
      | _ => old
    else old
  | _ => old

/-- serial.rs lines 228-233: the guard deciding whether an unquoted line is
treated as a function-token reply. -/
def funcTokenGuard (u : List Char) : Bool :=
  "VOLT".toList.isPrefixOf u ∨ "CURR".toList.isPrefixOf u ∨
  u = "FREQ".toList ∨ u = "PER".toList ∨ u = "CAP".toList ∨ u = "CONT".toList ∨
  u = "DIOD".toList ∨ u = "RES".toList ∨ u = "TEMP".toList

/-- serial.rs lines 234-248: the match from an unquoted token to a
`MeterMode`, applying the firmware quirk to `DIOD` and `CONT`; the wildcard
arm of the source `continue`s, modelled by `none`. -/
def resolveToken (swap : Bool) (u : List Char) : Option MeterMode :=
  if u = "VOLT".toList then some MeterMode.Vdc
  else if u = "VOLT AC".toList then some MeterMode.Vac
  else if u = "CURR".toList then some MeterMode.Adc
  else if u = "CURR AC".toList then some MeterMode.Aac
  else if u = "RES".toList then some MeterMode.Res
  else if u = "CAP".toList then some MeterMode.Cap
  else if u = "FREQ".toList then some MeterMode.Freq
  else if u = "PER".toList then some MeterMode.Per
  else if u = "TEMP".toList then some MeterMode.Temp
  else if u = "DIOD".toList then some (if swap then MeterMode.Cont else MeterMode.Diod)
  else if u = "CONT".toList then some (if swap then MeterMode.Diod else MeterMode.Cont)
  else none

/-- Split a character list at the first exponent marker `e`/`E`, returning
the mantissa part and, when a marker exists, the rest. -/
def splitAtExpMarker : List Char → List Char × Option (List Char)
  | [] => ([], none)
  | c :: rest =>
    if c = 'e' ∨ c = 'E' then ([], some rest)
    else
      let p := splitAtExpMarker rest
      (c :: p.1, p.2)

/-- Mantissa of Rust's float grammar: `Digit+ ('.' Digit*)?` or `'.' Digit+`. -/
def acceptMantissa (l : List Char) : Bool :=
  let ds := l.takeWhile Char.isDigit
  match l.dropWhile Char.isDigit with
  | [] => !ds.isEmpty
  | '.' :: rest2 =>
    if ds.isEmpty then !rest2.isEmpty && rest2.all Char.isDigit
    else rest2.all Char.isDigit
  | _ => false

/-- Exact rational value of an accepted mantissa. -/
def mantissaVal (l : List Char) : ℚ :=
  let ds := l.takeWhile Char.isDigit
  match l.dropWhile Char.isDigit with
  | '.' :: rest2 => (digitsToNat ds : ℚ) + (digitsToNat rest2 : ℚ) / ((10 : ℚ) ^ rest2.length)
  | _ => (digitsToNat ds : ℚ)

/-- Exponent part of Rust's float grammar: `Sign? Digit+`. -/
def acceptExpPart (l : List Char) : Bool :=
  let body := match l with
    | '+' :: rest => rest
    | '-' :: rest => rest
    | _ => l
  !body.isEmpty && body.all Char.isDigit

/-- Scale factor contributed by an accepted exponent part. -/
def expScale (l : List Char) : ℚ :=
  match l with
  | '-' :: rest => ((10 : ℚ) ^ digitsToNat rest)⁻¹
  | '+' :: rest => (10 : ℚ) ^ digitsToNat rest
  | _ => (10 : ℚ) ^ digitsToNat l

/-- Result of a successful Rust `f64` parse; finite values are kept as the
exact rational value of the decimal literal. -/
inductive FloatVal
  | finite (q : ℚ)
  | infinite (neg : Bool)
  | nan
deriving DecidableEq, Repr

/-- Case-insensitive comparison against an ASCII keyword. -/
def lowerEq (l : List Char) (s : String) : Bool :=
  l.map Char.toLower = s.toList

/-- Rust `str::parse::<f64>()` on the trimmed line (grammar of
`f64::from_str`): optional sign, then `inf`/`infinity`/`nan`
(case-insensitive) or a mantissa with optional exponent. -/
def parseF64 (l : List Char) : Option FloatVal :=
  match l with
  | [] => none
  | _ =>
    let sb : Bool × List Char :=
      match l with
      | '-' :: rest => (true, rest)
      | '+' :: rest => (false, rest)
      | _ => (false, l)
    let neg := sb.1
    let body := sb.2
    if lowerEq body "inf" ∨ lowerEq body "infinity" then some (FloatVal.infinite neg)
    else if lowerEq body "nan" then some FloatVal.nan
    else
      let p := splitAtExpMarker body
      match p.2 with
      | none =>
        if acceptMantissa p.1 then
          some (FloatVal.finite (if neg then -(mantissaVal p.1) else mantissaVal p.1))
        else none
      | some e =>
        if acceptMantissa p.1 ∧ acceptExpPart e then
          some (FloatVal.finite
            (if neg then -(mantissaVal p.1 * expScale e) else mantissaVal p.1 * expScale e))
        else none

/-- Options `RateCmd::default().opts` from `src/multimeter.rs` (OWON XDM1041),
as an ordered list of label/wire-value pairs. -/
def rateOpts : List (String × String) :=
  [("Slow", "S"), ("Medium", "M"), ("Fast", "F")]

/-- Accessor `RateCmd::get_opt`: indexed access into the ordered option map. -/
def rateGetOpt (i : Nat) : String × String :=
  rateOpts.getD i ("", "")

/-- Configuration captured by the serial task at spawn time
(serial.rs lines 33-38). -/
structure Config where
  lockRemote : Bool
  beeperEnabled : Bool
  contThreshold : String
  diodThreshold : String
  currRate : Nat
deriving DecidableEq, Repr

/-- The beeper-state command chosen from `beeper_enabled`
(serial.rs lines 71-75 and 252-264). -/
def beepCmd (cfg : Config) : String :=
  if cfg.beeperEnabled then "SYST:BEEP:STATe ON\n" else "SYST:BEEP:STATe OFF\n"

/-- Initial command queue of the task (serial.rs lines 64-77). -/
def initialQueue (cfg : Config) : List String :=
  ["*IDN?\n",
   "RATE " ++ (rateGetOpt cfg.currRate).2 ++ "\n",
   beepCmd cfg,
   "CONT:THREshold " ++ cfg.contThreshold ++ "\n",
   "DIOD:THREshold " ++ cfg.diodThreshold ++ "\n"]

/-- Mutable state of the serial-task loop (serial.rs lines 43-50, plus the
mutex-shared device string written at line 196). -/
structure LoopState where
  scpimode : ScpiMode
  queue : List String
  shuttingDown : Bool
  dropSerial : Bool
  measCount : Nat
  lastMode : MeterMode
  swapDiodCont : Bool
  device : String
deriving DecidableEq, Repr

/-- State at the top of the loop (serial.rs lines 43-50): protocol state
`Idn`, the initial command queue, all flags clear. -/
def initState (cfg : Config) (curMode : MeterMode) (dev : String) : LoopState :=
  { scpimode := ScpiMode.Idn
    queue := initialQueue cfg
    shuttingDown := false
    dropSerial := false
    measCount := 0
    lastMode := curMode
    swapDiodCont := false
    device := dev }

/-- Values placed on the outgoing channels: a mode update on `tx_mode`
(line 251) or a parsed measurement on `tx_data` (line 272). -/
inductive Emission
  | mode (m : MeterMode)
  | meas (v : FloatVal)
deriving DecidableEq, Repr

/-- Beeper/threshold follow-up commands pushed on a genuine mode change
(serial.rs lines 252-266). -/
def modeFollowUps (cfg : Config) (m : MeterMode) : List String :=
  if m = MeterMode.Cont then
    [beepCmd cfg, "CONT:THREshold " ++ cfg.contThreshold ++ "\n"]
  else if m = MeterMode.Diod then
    [beepCmd cfg, "DIOD:THREshold " ++ cfg.diodThreshold ++ "\n"]
  else []

/-- serial.rs lines 186-279: handle one successful `read` returning
`content`.  Returns the new state, the commands pushed onto the queue, and
the values emitted; by construction the new queue is the old queue with the
pushed commands appended.  A read whose content does not end in the CRLF
terminator falls through without touching any state. -/
def processRead (cfg : Config) (st : LoopState) (content : String) :
    LoopState × List String × List Emission :=
  if endsWithCRLF content then
    let trimmed := trimEndChars content.toList
    if st.scpimode = ScpiMode.Idn then
      ({ st with device := ⟨trimmed⟩
                 scpimode := ScpiMode.Meas
                 swapDiodCont := computeSwap trimmed st.swapDiodCont }, [], [])
    else
      let unquoted := trimQuotesChars trimmed
      if funcTokenGuard unquoted then
        match resolveToken st.swapDiodCont unquoted with
        | some m =>
          if m ≠ st.lastMode then
            ({ st with lastMode := m, queue := st.queue ++ modeFollowUps cfg m },
             modeFollowUps cfg m, [Emission.mode m])
          else (st, [], [])
        | none => (st, [], [])
      else
        match parseF64 trimmed with
        | some v => ({ st with measCount := st.measCount + 1 }, [], [Emission.meas v])
        | none => (st, [], [])
  else (st, [], [])

/-- serial.rs lines 184-294: a read burst is a sequence of successful reads
processed in order, ended by a would-block or read error (which only ends
the burst). -/
def handleReads (cfg : Config) (st : LoopState) : List String →
    LoopState × List String × List Emission
  | [] => (st, [], [])
  | r :: rs =>
    let p := processRead cfg st r
    let q := handleReads cfg p.1 rs
    (q.1, p.2.1 ++ q.2.1, p.2.2 ++ q.2.2)

/-- Outcome of the single `write_all` attempt of a writable event
(serial.rs lines 129-175). -/
inductive WriteOutcome
  | ok
  | wouldBlock
  | errOther
deriving DecidableEq, Repr

/-- Result of handling the write side of one event: new state, commands
successfully written, commands removed from the queue front, commands pushed
onto the queue, and whether the source `break`s out of the event loop
(skipping the read side of this wake). -/
structure WriteStep where
  state : LoopState
  written : List String
  popped : List String
  pushed : List String
  didBreak : Bool
deriving DecidableEq, Repr

/-- serial.rs lines 121-177: on a writable event with a non-empty queue,
attempt to write the front command.  On success it is popped; sending
`*IDN?\n` (outside shutdown) pushes `SYST:REM\n` (if remote locking) and
`MEAS?\n`; sending `*RST\n` during shutdown sets the drop flag.  A
would-block keeps the command at the front and breaks; any other error pops
the command without it having been written and breaks. -/
def handleWrite (cfg : Config) (st : LoopState) (outcome : WriteOutcome) : WriteStep :=
  match st.queue with
  | [] => ⟨st, [], [], [], false⟩
  | cmd :: rest =>
    match outcome with
    | WriteOutcome.ok =>
      let pushed :=
        if cmd = "*IDN?\n" ∧ st.shuttingDown = false then
          (if cfg.lockRemote then ["SYST:REM\n"] else []) ++ ["MEAS?\n"]
        else []
      let dropSerial := if st.shuttingDown = true ∧ cmd = "*RST\n" then true else st.dropSerial
      ⟨{ st with queue := rest ++ pushed, dropSerial := dropSerial },
       [cmd], [cmd], pushed, false⟩
    | WriteOutcome.wouldBlock => ⟨st, [], [], [], true⟩
    | WriteOutcome.errOther => ⟨{ st with queue := rest }, [], [cmd], [], true⟩

/-- serial.rs lines 305-319: after event handling, while not shutting down,
in `Meas` protocol state and with an empty queue, push `FUNC?\n` and reset
the cycle counter when it has reached 10, else push `MEAS?\n`. -/
def autoEnqueue (st : LoopState) : LoopState × List String :=
  if st.shuttingDown = false ∧ st.scpimode = ScpiMode.Meas ∧ st.queue = [] then
    if 10 ≤ st.measCount then
      ({ st with queue := st.queue ++ ["FUNC?\n"], measCount := 0 }, ["FUNC?\n"])
    else
      ({ st with queue := st.queue ++ ["MEAS?\n"] }, ["MEAS?\n"])
  else (st, [])

/-- A readiness event as reported by the poller (at most one per wake:
`Events::with_capacity(1)`). -/
structure MioEvent where
  writable : Bool
  readable : Bool
deriving DecidableEq, Repr

/-- Environment input of one pass through the polling branch: the commands
drained from the UI channel, the readiness event (if any), the outcome the
transport gives the write attempt, and the successful reads of the burst. -/
structure PollInput where
  uiCmds : List String
  event : Option MioEvent
  writeOutcome : WriteOutcome
  reads : List String
deriving DecidableEq, Repr

/-- Environment input of one `select!` iteration: either the one-shot
shutdown signal fires, or the polling branch runs. -/
inductive LoopInput
  | shutdown
  | poll (p : PollInput)
deriving DecidableEq, Repr

/-- Observable result of one loop iteration. -/
structure StepOut where
  state : LoopState
  written : List String
  popped : List String
  pushed : List String
  emissions : List Emission
deriving DecidableEq, Repr

/-- Write side of one wake: if an event was reported and it is writable, the
single write attempt of serial.rs lines 121-177 runs; otherwise nothing
happens. -/
def writePhase (cfg : Config) (st0 : LoopState) (p : PollInput) : WriteStep :=
  match p.event with
  | none => ⟨st0, [], [], [], false⟩
  | some ev =>
    if ev.writable then handleWrite cfg st0 p.writeOutcome
    else ⟨st0, [], [], [], false⟩

/-- Read side of one wake: if an event was reported, it is readable, and the
write side did not `break` out of the event loop, the read burst of
serial.rs lines 180-295 runs. -/
def readPhase (cfg : Config) (w : WriteStep) (p : PollInput) :
    LoopState × List String × List Emission :=
  match p.event with
  | none => (w.state, [], [])
  | some ev =>
    if ev.readable ∧ w.didBreak = false then handleReads cfg w.state p.reads
    else (w.state, [], [])

/-- serial.rs lines 93-322: one pass of the polling branch.  UI commands are
appended first (lines 102-107); then the write side runs before the read
side; finally the polling query is re-armed (lines 305-319). -/
def stepPoll (cfg : Config) (st : LoopState) (p : PollInput) : StepOut :=
  let st0 := { st with queue := st.queue ++ p.uiCmds }
  let w := writePhase cfg st0 p
  let r := readPhase cfg w p
  let a := autoEnqueue r.1
  ⟨a.1, w.written, w.popped, p.uiCmds ++ w.pushed ++ r.2.1 ++ a.2, r.2.2⟩

/-- serial.rs lines 79-92 plus 93-322: one `select!` iteration.  The
shutdown branch (guarded by `!shutting_down`) sets the flag and appends
`SYST:LOC\n` then `*RST\n`; otherwise the polling branch runs. -/
def step (cfg : Config) (st : LoopState) : LoopInput → StepOut
  | LoopInput.shutdown =>
    if st.shuttingDown then ⟨st, [], [], [], []⟩
    else
      ⟨{ st with shuttingDown := true, queue := st.queue ++ ["SYST:LOC\n", "*RST\n"] },
       [], [], ["SYST:LOC\n", "*RST\n"], []⟩
  | LoopInput.poll p => stepPoll cfg st p

/-- Accumulated observation of a run of the loop; `exited` records that the
loop hit the `shutting_down && drop_serial` break (serial.rs lines 326-328),
after which the transport is deregistered and dropped. -/
structure RunResult where
  state : LoopState
  written : List String
  popped : List String
  pushed : List String
  emissions : List Emission
  exited : Bool
deriving DecidableEq, Repr

/-- Run the loop over a list of environment inputs; after each iteration the
loop breaks (and the run ends, discarding the remaining inputs) iff both the
shutdown flag and the drop flag are set. -/
def run (cfg : Config) (st : LoopState) : List LoopInput → RunResult
  | [] => ⟨st, [], [], [], [], false⟩
  | i :: rest =>
    let s := step cfg st i
    if s.state.shuttingDown = true ∧ s.state.dropSerial = true then
      ⟨s.state, s.written, s.popped, s.pushed, s.emissions, true⟩
    else
      let r := run cfg s.state rest
      ⟨r.state, s.written ++ r.written, s.popped ++ r.popped,
       s.pushed ++ r.pushed, s.emissions ++ r.emissions, r.exited⟩

/-- A command is a query iff its text ends in `?` before the `\n` terminator
(spec section 3). -/
def isQuery (s : String) : Bool :=
  match s.toList.reverse with
  | '\n' :: '?' :: _ => true
  | _ => false

/-- An emission carrying a measurement. -/
def isMeasEmission : Emission → Bool
  | Emission.meas _ => true
  | Emission.mode _ => false

/-- A run whose environment inputs deliver no read data at all. -/
def noReads : List LoopInput → Bool
  | [] => true
  | LoopInput.shutdown :: rest => noReads rest
  | LoopInput.poll p :: rest =>
    (p.reads.isEmpty &&
      (match p.event with
       | some ev => !ev.readable
       | none => true)) && noReads rest

/-- An input whose write attempt (if any) does not hit a hard
(non-would-block) error. -/
def okOnlyInput : LoopInput → Bool
  | LoopInput.shutdown => true
  | LoopInput.poll p =>
    match p.writeOutcome with
    | WriteOutcome.errOther => false
    | _ => true

/-- A run whose write attempts never hit a hard (non-would-block) error. -/
def okOnly (l : List LoopInput) : Bool :=
  l.all okOnlyInput

/-- State of a bounded tokio mpsc channel as seen by a sender. -/
structure ChannelState where
  capacity : Nat
  queued : Nat
  receiverAlive : Bool
deriving DecidableEq, Repr

/-- What an awaited `Sender::send` does. -/
inductive SendOutcome
  | delivered
  | waitsForCapacity
  | closedError
deriving DecidableEq, Repr

/-- The documented semantics of `tokio::sync::mpsc::Sender::send` as awaited
at serial.rs lines 251 (`tx_mode`) and 272 (`tx_data`), where the result is
discarded by `let _ =`: the future resolves with an error only when every
receiver has been dropped; when the channel is full it waits until capacity
becomes available; otherwise the value is delivered. -/
def mpscSend (ch : ChannelState) : SendOutcome :=
  if ch.receiverAlive = false then SendOutcome.closedError
  else if ch.capacity ≤ ch.queued then SendOutcome.waitsForCapacity
  else SendOutcome.delivered

/-- Capacity of the measurement channel `tx_data` (serial.rs line 20). -/
def measChannelCapacity : Nat := 100

/-- Capacity of the mode channel `tx_mode` (serial.rs line 22). -/
def modeChannelCapacity : Nat := 10

/-- A concrete spawn configuration: remote locking off, beeper on,
thresholds `50` and `2.5`, rate index 0 (`Slow`). -/
def cfg0 : Config := ⟨false, true, "50", "2.5", 0⟩

/-- The loop state right after spawning with `cfg0`. -/
def st0 : LoopState := initState cfg0 MeterMode.Vdc ""

/-- A reachable measuring-state fixture: protocol state `Meas`, empty queue,
cycle counter 0, last mode `Vdc`, no quirk. -/
def st0m : LoopState :=
  { scpimode := ScpiMode.Meas
    queue := []
    shuttingDown := false
    dropSerial := false
    measCount := 0
    lastMode := MeterMode.Vdc
    swapDiodCont := false
    device := "" }

/-- A wake reporting a writable-only event whose write succeeds, with no UI
commands and no read data. -/
def wEv : PollInput := ⟨[], some ⟨true, false⟩, WriteOutcome.ok, []⟩

/-- Six consecutive writable-only wakes with successful writes and no reads. -/
def c1inputs : List LoopInput := List.replicate 6 (LoopInput.poll wEv)

/-- A writable-only wake whose write attempt fails with a hard error. -/
def c3input : PollInput := ⟨[], some ⟨true, false⟩, WriteOutcome.errOther, []⟩

/-- A disconnect followed by a failing write wake and two successful write
wakes. -/
def c8cex : List LoopInput :=
  [LoopInput.shutdown, LoopInput.poll c3input, LoopInput.poll wEv, LoopInput.poll wEv]


theorem processRead_queue (cfg : Config) (st : LoopState) (c : String) :
    (processRead cfg st c).1.queue = st.queue ++ (processRead cfg st c).2.1 := by
  unfold processRead; dsimp only; repeat' split
  all_goals simp

theorem processRead_shuttingDown (cfg : Config) (st : LoopState) (c : String) :
    (processRead cfg st c).1.shuttingDown = st.shuttingDown := by
  unfold processRead; dsimp only; repeat' split
  all_goals simp

theorem processRead_dropSerial (cfg : Config) (st : LoopState) (c : String) :
    (processRead cfg st c).1.dropSerial = st.dropSerial := by
  unfold processRead; dsimp only; repeat' split
  all_goals simp

theorem processRead_measCount (cfg : Config) (st : LoopState) (c : String) :
    (processRead cfg st c).1.measCount =
      st.measCount + (processRead cfg st c).2.2.countP isMeasEmission := by
  unfold processRead; dsimp only; repeat' split
  all_goals simp [isMeasEmission, List.countP, List.countP.go]

theorem handleReads_queue (cfg : Config) (st : LoopState) (rs : List String) :
    (handleReads cfg st rs).1.queue = st.queue ++ (handleReads cfg st rs).2.1 := by
  induction rs generalizing st with
  | nil => simp [handleReads]
  | cons r rs ih => simp [handleReads, ih, processRead_queue]

theorem handleReads_shuttingDown (cfg : Config) (st : LoopState) (rs : List String) :
    (handleReads cfg st rs).1.shuttingDown = st.shuttingDown := by
  induction rs generalizing st with
  | nil => simp [handleReads]
  | cons r rs ih => simp [handleReads, ih, processRead_shuttingDown]

theorem handleReads_dropSerial (cfg : Config) (st : LoopState) (rs : List String) :
    (handleReads cfg st rs).1.dropSerial = st.dropSerial := by
  induction rs generalizing st with
  | nil => simp [handleReads]
  | cons r rs ih => simp [handleReads, ih, processRead_dropSerial]

theorem handleWrite_queue (cfg : Config) (st : LoopState) (o : WriteOutcome) :
    (handleWrite cfg st o).popped ++ (handleWrite cfg st o).state.queue
      = st.queue ++ (handleWrite cfg st o).pushed := by
  unfold handleWrite; dsimp only; repeat' split
  all_goals simp_all

theorem handleWrite_written_sublist (cfg : Config) (st : LoopState) (o : WriteOutcome) :
    List.Sublist (handleWrite cfg st o).written (handleWrite cfg st o).popped := by
  unfold handleWrite; dsimp only; repeat' split
  all_goals simp

theorem handleWrite_len (cfg : Config) (st : LoopState) (o : WriteOutcome) :
    (handleWrite cfg st o).written.length ≤ 1 := by
  unfold handleWrite; dsimp only; repeat' split
  all_goals simp

theorem handleWrite_ok (cfg : Config) (st : LoopState) (o : WriteOutcome)
    (h : o ≠ WriteOutcome.errOther) :
    (handleWrite cfg st o).written = (handleWrite cfg st o).popped := by
  unfold handleWrite; dsimp only; repeat' split
  all_goals simp_all

theorem handleWrite_shuttingDown (cfg : Config) (st : LoopState) (o : WriteOutcome) :
    (handleWrite cfg st o).state.shuttingDown = st.shuttingDown := by
  unfold handleWrite; dsimp only; repeat' split
  all_goals simp

theorem handleWrite_dropSerial (cfg : Config) (st : LoopState) (o : WriteOutcome)
    (h : (handleWrite cfg st o).state.dropSerial = true) :
    st.dropSerial = true ∨
      (st.shuttingDown = true ∧ "*RST\n" ∈ (handleWrite cfg st o).written) := by
  cases hq : st.queue with
  | nil =>
    simp only [handleWrite, hq] at h
    exact Or.inl h
  | cons cmd rest =>
    cases o with
    | ok =>
      simp only [handleWrite, hq] at h
      split at h
      · rename_i hs
        exact Or.inr ⟨hs.1, by simp [handleWrite, hq, hs.2]⟩
      · exact Or.inl h
    | wouldBlock =>
      simp only [handleWrite, hq] at h
      exact Or.inl h
    | errOther =>
      simp only [handleWrite, hq] at h
      exact Or.inl h

theorem autoEnqueue_queue (st : LoopState) :
    (autoEnqueue st).1.queue = st.queue ++ (autoEnqueue st).2 := by
  unfold autoEnqueue; repeat' split
  all_goals simp

theorem autoEnqueue_shuttingDown (st : LoopState) :
    (autoEnqueue st).1.shuttingDown = st.shuttingDown := by
  unfold autoEnqueue; repeat' split
  all_goals simp

theorem autoEnqueue_dropSerial (st : LoopState) :
    (autoEnqueue st).1.dropSerial = st.dropSerial := by
  unfold autoEnqueue; repeat' split
  all_goals simp

theorem writePhase_queue (cfg : Config) (st0 : LoopState) (p : PollInput) :
    (writePhase cfg st0 p).popped ++ (writePhase cfg st0 p).state.queue
      = st0.queue ++ (writePhase cfg st0 p).pushed := by
  unfold writePhase; repeat' split
  all_goals first
    | exact handleWrite_queue ..
    | simp

theorem writePhase_written_sublist (cfg : Config) (st0 : LoopState) (p : PollInput) :
    List.Sublist (writePhase cfg st0 p).written (writePhase cfg st0 p).popped := by
  unfold writePhase; repeat' split
  all_goals first
    | exact handleWrite_written_sublist ..
    | simp

theorem writePhase_len (cfg : Config) (st0 : LoopState) (p : PollInput) :
    (writePhase cfg st0 p).written.length ≤ 1 := by
  unfold writePhase; repeat' split
  all_goals first
    | exact handleWrite_len ..
    | simp

theorem writePhase_ok (cfg : Config) (st0 : LoopState) (p : PollInput)
    (h : p.writeOutcome ≠ WriteOutcome.errOther) :
    (writePhase cfg st0 p).written = (writePhase cfg st0 p).popped := by
  unfold writePhase; repeat' split
  all_goals first
    | exact handleWrite_ok _ _ _ h
    | simp

theorem writePhase_shuttingDown (cfg : Config) (st0 : LoopState) (p : PollInput) :
    (writePhase cfg st0 p).state.shuttingDown = st0.shuttingDown := by
  unfold writePhase; repeat' split
  all_goals first
    | exact handleWrite_shuttingDown ..
    | simp

theorem writePhase_dropSerial (cfg : Config) (st0 : LoopState) (p : PollInput)
    (h : (writePhase cfg st0 p).state.dropSerial = true) :
    st0.dropSerial = true ∨
      (st0.shuttingDown = true ∧ "*RST\n" ∈ (writePhase cfg st0 p).written) := by
  unfold writePhase at h ⊢
  cases hE : p.event with
  | none =>
    rw [hE] at h
    dsimp only at h ⊢
    exact Or.inl h
  | some ev =>
    rw [hE] at h
    dsimp only at h ⊢
    by_cases hw : ev.writable = true
    · rw [if_pos hw] at h ⊢
      exact handleWrite_dropSerial _ _ _ h
    · rw [if_neg hw] at h ⊢
      exact Or.inl h

theorem readPhase_queue (cfg : Config) (w : WriteStep) (p : PollInput) :
    (readPhase cfg w p).1.queue = w.state.queue ++ (readPhase cfg w p).2.1 := by
  unfold readPhase; repeat' split
  all_goals first
    | exact handleReads_queue ..
    | simp

theorem readPhase_shuttingDown (cfg : Config) (w : WriteStep) (p : PollInput) :
    (readPhase cfg w p).1.shuttingDown = w.state.shuttingDown := by
  unfold readPhase; repeat' split
  all_goals first
    | exact handleReads_shuttingDown ..
    | simp

theorem readPhase_dropSerial (cfg : Config) (w : WriteStep) (p : PollInput) :
    (readPhase cfg w p).1.dropSerial = w.state.dropSerial := by
  unfold readPhase; repeat' split
  all_goals first
    | exact handleReads_dropSerial ..
    | simp

theorem stepPoll_queue (cfg : Config) (st : LoopState) (p : PollInput) :
    (stepPoll cfg st p).popped ++ (stepPoll cfg st p).state.queue
      = st.queue ++ (stepPoll cfg st p).pushed := by
  unfold stepPoll
  dsimp only
  rw [autoEnqueue_queue, readPhase_queue, ← List.append_assoc, ← List.append_assoc,
    writePhase_queue]
  simp

theorem stepPoll_shuttingDown (cfg : Config) (st : LoopState) (p : PollInput) :
    (stepPoll cfg st p).state.shuttingDown = st.shuttingDown := by
  unfold stepPoll
  dsimp only
  rw [autoEnqueue_shuttingDown, readPhase_shuttingDown, writePhase_shuttingDown]

theorem stepPoll_written_sublist (cfg : Config) (st : LoopState) (p : PollInput) :
    List.Sublist (stepPoll cfg st p).written (stepPoll cfg st p).popped := by
  unfold stepPoll
  dsimp only
  exact writePhase_written_sublist ..

theorem stepPoll_written_len (cfg : Config) (st : LoopState) (p : PollInput) :
    (stepPoll cfg st p).written.length ≤ 1 := by
  unfold stepPoll
  dsimp only
  exact writePhase_len ..

theorem stepPoll_ok (cfg : Config) (st : LoopState) (p : PollInput)
    (h : p.writeOutcome ≠ WriteOutcome.errOther) :
    (stepPoll cfg st p).written = (stepPoll cfg st p).popped := by
  unfold stepPoll
  dsimp only
  exact writePhase_ok _ _ _ h

theorem stepPoll_dropSerial (cfg : Config) (st : LoopState) (p : PollInput)
    (hd : st.dropSerial = false)
    (h : (stepPoll cfg st p).state.dropSerial = true) :
    (stepPoll cfg st p).state.shuttingDown = true ∧
      "*RST\n" ∈ (stepPoll cfg st p).written := by
  unfold stepPoll at h ⊢
  dsimp only at h ⊢
  rw [autoEnqueue_dropSerial, readPhase_dropSerial] at h
  rcases writePhase_dropSerial _ _ _ h with h1 | h2
  · simp [hd] at h1
  · refine ⟨?_, h2.2⟩
    rw [autoEnqueue_shuttingDown, readPhase_shuttingDown, writePhase_shuttingDown]
    exact h2.1


theorem step_queue (cfg : Config) (st : LoopState) (i : LoopInput) :
    (step cfg st i).popped ++ (step cfg st i).state.queue
      = st.queue ++ (step cfg st i).pushed := by
  cases i with
  | shutdown =>
    simp only [step]; split
    all_goals simp
  | poll p => exact stepPoll_queue ..

theorem step_written_sublist (cfg : Config) (st : LoopState) (i : LoopInput) :
    List.Sublist (step cfg st i).written (step cfg st i).popped := by
  cases i with
  | shutdown =>
    simp only [step]; split
    all_goals simp
  | poll p => exact stepPoll_written_sublist ..

theorem step_written_len (cfg : Config) (st : LoopState) (i : LoopInput) :
    (step cfg st i).written.length ≤ 1 := by
  cases i with
  | shutdown =>
    simp only [step]; split
    all_goals simp
  | poll p => exact stepPoll_written_len ..

theorem step_ok (cfg : Config) (st : LoopState) (i : LoopInput)
    (h : okOnlyInput i = true) :
    (step cfg st i).written = (step cfg st i).popped := by
  cases i with
  | shutdown =>
    simp only [step]; split
    all_goals simp
  | poll p =>
    refine stepPoll_ok _ _ _ ?_
    intro hc
    simp [okOnlyInput, hc] at h

theorem step_dropSerial (cfg : Config) (st : LoopState) (i : LoopInput)
    (hd : st.dropSerial = false)
    (h : (step cfg st i).state.dropSerial = true) :
    (step cfg st i).state.shuttingDown = true ∧ "*RST\n" ∈ (step cfg st i).written := by
  cases i with
  | shutdown =>
    simp only [step] at h ⊢
    split at h
    all_goals simp_all
  | poll p => exact stepPoll_dropSerial _ _ _ hd h

theorem run_queue (cfg : Config) (st : LoopState) (l : List LoopInput) :
    (run cfg st l).popped ++ (run cfg st l).state.queue
      = st.queue ++ (run cfg st l).pushed := by
  induction l generalizing st with
  | nil => simp [run]
  | cons i rest ih =>
    unfold run
    dsimp only
    split
    · exact step_queue ..
    · dsimp only
      rw [List.append_assoc, ih, ← List.append_assoc, ← List.append_assoc, step_queue]

theorem run_written_sublist (cfg : Config) (st : LoopState) (l : List LoopInput) :
    List.Sublist (run cfg st l).written (run cfg st l).popped := by
  induction l generalizing st with
  | nil => simp [run]
  | cons i rest ih =>
    unfold run
    dsimp only
    split
    · exact step_written_sublist ..
    · exact List.Sublist.append (step_written_sublist ..) (ih _)

theorem run_ok (cfg : Config) (st : LoopState) (l : List LoopInput)
    (h : okOnly l = true) :
    (run cfg st l).written = (run cfg st l).popped := by
  induction l generalizing st with
  | nil => simp [run]
  | cons i rest ih =>
    rw [okOnly, List.all_cons, Bool.and_eq_true] at h
    unfold run
    dsimp only
    split
    · exact step_ok _ _ _ h.1
    · rw [step_ok _ _ _ h.1, ih _ h.2]

theorem run_exited_flags (cfg : Config) (st : LoopState) (l : List LoopInput)
    (h : (run cfg st l).exited = true) :
    (run cfg st l).state.shuttingDown = true ∧ (run cfg st l).state.dropSerial = true := by
  induction l generalizing st with
  | nil => simp [run] at h
  | cons i rest ih =>
    unfold run at h ⊢
    dsimp only at h ⊢
    split at h
    · rename_i hb
      rw [if_pos hb]
      exact hb
    · rename_i hb
      rw [if_neg hb]
      exact ih _ h

theorem run_rst (cfg : Config) (st : LoopState) (l : List LoopInput)
    (hd : st.dropSerial = false)
    (he : (run cfg st l).exited = true) :
    "*RST\n" ∈ (run cfg st l).written := by
  induction l generalizing st with
  | nil => simp [run] at he
  | cons i rest ih =>
    unfold run at he ⊢
    dsimp only at he ⊢
    split at he
    · rename_i hb
      rw [if_pos hb]
      exact (step_dropSerial _ _ _ hd hb.2).2
    · rename_i hb
      rw [if_neg hb]
      by_cases hds : (step cfg st i).state.dropSerial = true
      · exact absurd ⟨(step_dropSerial _ _ _ hd hds).1, hds⟩ hb
      · have hds' : (step cfg st i).state.dropSerial = false := by
          simpa using hds
        exact List.mem_append_right _ (ih _ hds' he)



/-- C5: processing `OWON,XDM1041,SN123,V4.2.9` sets the swap quirk,
`OWON,XDM1041,SN123,V4.3.0` leaves it clear; in general, for an identity
record with manufacturer OWON, model XDM1041/XDM1241 and firmware version
`Vmajor.minor.patch`, the quirk is set iff `major < 4` or `major = 4` and
`minor < 3`. -/
theorem c5_quirk_derivation :
    computeSwap "OWON,XDM1041,SN123,V4.2.9".toList false = true ∧
    computeSwap "OWON,XDM1041,SN123,V4.3.0".toList false = false ∧
    ∀ (trimmed : List Char) (old : Bool) (mdl sn vf : List Char)
      (moreParts : List (List Char)) (ms ns ps : List Char)
      (moreVersion : List (List Char)) (major minor : Nat),
      splitOnChar ',' trimmed = "OWON".toList :: mdl :: sn :: vf :: moreParts →
      (mdl = "XDM1041".toList ∨ mdl = "XDM1241".toList) →
      splitOnChar '.' (vf.dropWhile (· = 'V')) = ms :: ns :: ps :: moreVersion →
      parseU32 ms = some major →
      parseU32 ns = some minor →
      computeSwap trimmed old = decide (major < 4 ∨ (major = 4 ∧ minor < 3)) := by
  refine ⟨by decide, by decide, ?_⟩
  intro trimmed old mdl sn vf moreParts ms ns ps moreVersion major minor h1 h2 h3 h4 h5
  unfold computeSwap
  rw [h1]
  dsimp only
  rw [if_pos ⟨rfl, by rcases h2 with h | h <;> subst h <;> decide⟩, h3]
  dsimp only
  rw [h4, h5]

theorem c5_quirk_derivation_witness :
    splitOnChar ',' "OWON,XDM1241,SN9,V3.0.1".toList =
      "OWON".toList :: "XDM1241".toList :: "SN9".toList :: "V3.0.1".toList :: [] ∧
    computeSwap "OWON,XDM1241,SN9,V3.0.1".toList true =
      decide (3 < 4 ∨ (3 = 4 ∧ 0 < 3)) :=
  ⟨by decide,
   c5_quirk_derivation.2.2 "OWON,XDM1241,SN9,V3.0.1".toList true
     "XDM1241".toList "SN9".toList "V3.0.1".toList []
     "3".toList "0".toList "1".toList [] 3 0
     (by decide) (Or.inr rfl) (by decide) (by decide) (by decide)⟩


/-- C6: with the quirk clear every function token resolves per the canonical
table; with the quirk set, `CONT` resolves to `Diod` and `DIOD` to `Cont`
while all other tokens resolve canonically. -/
theorem c6_mode_mapping :
    resolveToken false "VOLT".toList = some MeterMode.Vdc ∧
    resolveToken false "VOLT AC".toList = some MeterMode.Vac ∧
    resolveToken false "CURR".toList = some MeterMode.Adc ∧
    resolveToken false "CURR AC".toList = some MeterMode.Aac ∧
    resolveToken false "RES".toList = some MeterMode.Res ∧
    resolveToken false "CAP".toList = some MeterMode.Cap ∧
    resolveToken false "FREQ".toList = some MeterMode.Freq ∧
    resolveToken false "PER".toList = some MeterMode.Per ∧
    resolveToken false "TEMP".toList = some MeterMode.Temp ∧
    resolveToken false "DIOD".toList = some MeterMode.Diod ∧
    resolveToken false "CONT".toList = some MeterMode.Cont ∧
    resolveToken true "CONT".toList = some MeterMode.Diod ∧
    resolveToken true "DIOD".toList = some MeterMode.Cont ∧
    resolveToken true "VOLT".toList = some MeterMode.Vdc ∧
    resolveToken true "VOLT AC".toList = some MeterMode.Vac ∧
    resolveToken true "CURR".toList = some MeterMode.Adc ∧
    resolveToken true "CURR AC".toList = some MeterMode.Aac ∧
    resolveToken true "RES".toList = some MeterMode.Res ∧
    resolveToken true "CAP".toList = some MeterMode.Cap ∧
    resolveToken true "FREQ".toList = some MeterMode.Freq ∧
    resolveToken true "PER".toList = some MeterMode.Per ∧
    resolveToken true "TEMP".toList = some MeterMode.Temp := by
  decide

/-- C7: with the loop not shutting down, in measuring mode and with an empty
queue, the dispatcher enqueues `FUNC?\n` and resets the counter once the
counter has reached 10, and otherwise enqueues `MEAS?\n` leaving the counter
unchanged; the counter is incremented exactly once per emitted measurement. -/
theorem c7_polling_cadence :
    (∀ st : LoopState,
      st.shuttingDown = false → st.scpimode = ScpiMode.Meas → st.queue = [] →
      (10 ≤ st.measCount →
        (autoEnqueue st).1.queue = ["FUNC?\n"] ∧ (autoEnqueue st).1.measCount = 0 ∧
        (autoEnqueue st).2 = ["FUNC?\n"]) ∧
      (st.measCount < 10 →
        (autoEnqueue st).1.queue = ["MEAS?\n"] ∧
        (autoEnqueue st).1.measCount = st.measCount ∧
        (autoEnqueue st).2 = ["MEAS?\n"])) ∧
    (∀ (cfg : Config) (st : LoopState) (content : String),
      (processRead cfg st content).1.measCount =
        st.measCount + (processRead cfg st content).2.2.countP isMeasEmission) := by
  constructor
  · intro st h1 h2 h3
    constructor
    · intro h10
      unfold autoEnqueue
      rw [if_pos ⟨h1, h2, h3⟩, if_pos h10]
      simp [h3]
    · intro hlt
      unfold autoEnqueue
      rw [if_pos ⟨h1, h2, h3⟩, if_neg (by omega)]
      simp [h3]
  · exact processRead_measCount

theorem c7_polling_cadence_witness :
    ({ st0m with measCount := 10 } : LoopState).shuttingDown = false ∧
    ({ st0m with measCount := 10 } : LoopState).scpimode = ScpiMode.Meas ∧
    ({ st0m with measCount := 10 } : LoopState).queue = [] ∧
    10 ≤ ({ st0m with measCount := 10 } : LoopState).measCount ∧
    (autoEnqueue { st0m with measCount := 10 }).1.queue = ["FUNC?\n"] ∧
    (autoEnqueue { st0m with measCount := 10 }).1.measCount = 0 ∧
    (autoEnqueue { st0m with measCount := 9 }).1.queue = ["MEAS?\n"] := by
  refine ⟨by decide, by decide, by decide, by decide, ?_, ?_, ?_⟩
  · exact ((c7_polling_cadence.1 _ (by decide) (by decide) (by decide)).1 (by decide)).1
  · exact ((c7_polling_cadence.1 _ (by decide) (by decide) (by decide)).1 (by decide)).2.1
  · exact ((c7_polling_cadence.1 _ (by decide) (by decide) (by decide)).2 (by decide)).1

/-- C2 fails on the code: there is no cross-read buffering.  The reply
`+1.234\r\n` split as the two reads `+1.2` then `34\r\n` is not processed
like the single read `+1.234\r\n`: the bytes `+1.2` are discarded and the
second read alone is parsed, emitting the measurement 34 instead of
1.234. -/
theorem c2_counterexample :
    (handleReads cfg0 st0m ["+1.2", "34\r\n"]).2.2 =
      [Emission.meas (FloatVal.finite 34)] ∧
    (handleReads cfg0 st0m ["+1.234\r\n"]).2.2 =
      [Emission.meas (FloatVal.finite (617/500))] ∧
    (FloatVal.finite (34 : ℚ) ≠ FloatVal.finite (617/500 : ℚ)) :=
  ⟨by with_unfolding_all rfl, by with_unfolding_all rfl, by norm_num⟩

/-- C2 amended: a read whose content does not itself end with the `\r\n`
terminator produces no emission and leaves the loop state unchanged — its
bytes are discarded, not buffered; only a read ending in the terminator is
interpreted, as a single line. -/
theorem c2_amended_partial_reads_discarded :
    ∀ (cfg : Config) (st : LoopState) (content : String),
      endsWithCRLF content = false →
      processRead cfg st content = (st, [], []) := by
  intro cfg st content h
  unfold processRead
  simp [h]

theorem c2_amended_partial_reads_discarded_witness :
    endsWithCRLF "+1.2" = false ∧ processRead cfg0 st0m "+1.2" = (st0m, [], []) :=
  ⟨by decide, c2_amended_partial_reads_discarded cfg0 st0m "+1.2" (by decide)⟩

/-- C9 fails on the code: quotes are stripped only for function-token
recognition; the float parse is applied to the line with its quotes
retained, so the quoted numeric reply emits nothing while the unquoted
line emits the measurement. -/
theorem c9_counterexample :
    (processRead cfg0 st0m "\"+1.234560E+01\"\r\n").2.2 = [] ∧
    (processRead cfg0 st0m "\"+1.234560E+01\"\r\n").1.measCount = st0m.measCount ∧
    (processRead cfg0 st0m "+1.234560E+01\r\n").2.2 =
      [Emission.meas (FloatVal.finite (123456/10000))] :=
  ⟨by with_unfolding_all rfl, by with_unfolding_all rfl, by with_unfolding_all rfl⟩

/-- C9 amended: in measuring state, for a complete line that is not a
recognized function token, the emission is governed by the floating-point
parse of the trimmed line with quotes retained (quotes are stripped only
for the token guard): a successful parse emits exactly that value, a failed
parse emits nothing. -/
theorem c9_amended_parse_unstripped :
    ∀ (cfg : Config) (st : LoopState) (content : String),
      endsWithCRLF content = true →
      st.scpimode = ScpiMode.Meas →
      funcTokenGuard (trimQuotesChars (trimEndChars content.toList)) = false →
      (processRead cfg st content).2.2 =
        (match parseF64 (trimEndChars content.toList) with
         | some v => [Emission.meas v]
         | none => []) := by
  intro cfg st content h1 h2 h3
  cases hp : parseF64 (trimEndChars content.toList)
  all_goals
    simp only [String.toList] at h3 hp
    simp [processRead, h1, h2, h3, hp]

theorem c9_amended_parse_unstripped_witness :
    endsWithCRLF "\"+1.234560E+01\"\r\n" = true ∧
    st0m.scpimode = ScpiMode.Meas ∧
    funcTokenGuard (trimQuotesChars (trimEndChars ("\"+1.234560E+01\"\r\n").toList)) = false ∧
    (processRead cfg0 st0m "\"+1.234560E+01\"\r\n").2.2 =
      (match parseF64 (trimEndChars ("\"+1.234560E+01\"\r\n").toList) with
       | some v => [Emission.meas v]
       | none => []) :=
  ⟨by decide, by decide, by decide,
   c9_amended_parse_unstripped cfg0 st0m "\"+1.234560E+01\"\r\n"
     (by decide) (by decide) (by decide)⟩

/-- C10 fails on the code in its universal form: the read
`+1.0E+00\r\n\r\n` consists of two complete `\r\n`-terminated replies (a
measurement reply followed by an empty reply), yet `trim_end` strips all
trailing whitespace including the second reply, leaving `+1.0E+00`, which
parses as a number — so a measurement IS emitted for a batched read and the
cycle counter DOES advance, contradicting the claim that no event is ever
emitted for batched replies. -/
theorem c10_counterexample :
    "+1.0E+00\r\n\r\n" = "+1.0E+00\r\n" ++ "\r\n" ∧
    endsWithCRLF "+1.0E+00\r\n" = true ∧
    endsWithCRLF "\r\n" = true ∧
    (processRead cfg0 st0m "+1.0E+00\r\n\r\n").2.2 =
      [Emission.meas (FloatVal.finite 1)] ∧
    (processRead cfg0 st0m "+1.0E+00\r\n\r\n").1.measCount = st0m.measCount + 1 := by
  refine ⟨by decide, by decide, by decide, ?_, ?_⟩ <;> with_unfolding_all rfl

/-- C10 amended: a read holding several complete replies is never split at
interior terminators — the parser dispatches the whole buffer as at most
one line, so at most one emission results from any single read.  When an
interior terminator survives trailing-whitespace trimming, as in
`+1.0E+00\r\n+2.0E+00\r\n`, the combined line matches neither a function
token nor a valid number, so nothing is emitted and the cycle counter is
unchanged (while either reply read separately would emit its measurement);
but a batch whose content trims to a single valid line is dispatched once
as that line. -/
theorem c10_batched_single_dispatch :
    (∀ (cfg : Config) (st : LoopState) (content : String),
      (processRead cfg st content).2.2.length ≤ 1) ∧
    endsWithCRLF "+1.0E+00\r\n+2.0E+00\r\n" = true ∧
    funcTokenGuard (trimQuotesChars (trimEndChars ("+1.0E+00\r\n+2.0E+00\r\n").toList)) = false ∧
    parseF64 (trimEndChars ("+1.0E+00\r\n+2.0E+00\r\n").toList) = none ∧
    processRead cfg0 st0m "+1.0E+00\r\n+2.0E+00\r\n" = (st0m, [], []) ∧
    (processRead cfg0 st0m "+1.0E+00\r\n+2.0E+00\r\n").1.measCount = st0m.measCount ∧
    (processRead cfg0 st0m "+1.0E+00\r\n").2.2 = [Emission.meas (FloatVal.finite 1)] ∧
    (processRead cfg0 st0m "+2.0E+00\r\n").2.2 = [Emission.meas (FloatVal.finite 2)] := by
  refine ⟨?_, by decide, by decide, by decide, ?_, ?_, ?_, ?_⟩
  · intro cfg st content
    unfold processRead; dsimp only; repeat' split
    all_goals simp
  all_goals with_unfolding_all rfl


/-- C1 fails on the code: nothing gates writes on replies.  On six
consecutive writable wakes with successful writes and not a single read,
the loop writes both the query `*IDN?\n` and the query `MEAS?\n` (queued
right after `*IDN?\n` was sent), so a second query is written while the
first query's reply is still pending. -/
theorem c1_counterexample :
    noReads c1inputs = true ∧
    (run cfg0 st0 c1inputs).written.filter isQuery = ["*IDN?\n", "MEAS?\n"] ∧
    2 ≤ ((run cfg0 st0 c1inputs).written.filter isQuery).length := by
  refine ⟨by decide, by decide, by decide⟩

/-- C1 amended: the loop writes at most one command per wake, and the
dispatcher re-arms a polling query only when the command queue is empty;
but writes are not gated on replies, so consecutive writable wakes can put
a second query on the wire while the first reply is pending. -/
theorem c1_amended_write_discipline :
    (∀ (cfg : Config) (st : LoopState) (p : PollInput),
      (stepPoll cfg st p).written.length ≤ 1) ∧
    (∀ st : LoopState, st.queue ≠ [] → autoEnqueue st = (st, [])) := by
  refine ⟨stepPoll_written_len, ?_⟩
  intro st h
  unfold autoEnqueue
  rw [if_neg]
  intro hc
  exact h hc.2.2

theorem c1_amended_write_discipline_witness :
    (stepPoll cfg0 st0 wEv).written.length ≤ 1 ∧
    st0.queue ≠ [] ∧
    autoEnqueue st0 = (st0, []) :=
  ⟨c1_amended_write_discipline.1 cfg0 st0 wEv, by decide,
   c1_amended_write_discipline.2 st0 (by decide)⟩

/-- C3 fails on the code: on a hard (non-would-block) write error the front
entry is popped from the queue even though its bytes were never written
(serial.rs line 172).  On the very first wake with a failing write, the
queue loses `*IDN?\n` while nothing at all has been written. -/
theorem c3_counterexample :
    (stepPoll cfg0 st0 c3input).written = [] ∧
    (stepPoll cfg0 st0 c3input).popped = ["*IDN?\n"] ∧
    st0.queue.head? = some "*IDN?\n" ∧
    (stepPoll cfg0 st0 c3input).state.queue = st0.queue.tail := by
  refine ⟨by decide, by decide, by decide, by decide⟩

/-- C3 amended: commands leave the queue only from the front, so the popped
sequence extends exactly the enqueue order (popped ++ remaining queue equals
initial queue ++ pushes, over any run); the written sequence is the popped
sequence with hard-error victims removed (an order-preserving sublist), and
in any run without hard write errors written and popped coincide — entries
are then removed only after a successful write. -/
theorem c3_amended_fifo :
    (∀ (cfg : Config) (st : LoopState) (l : List LoopInput),
      (run cfg st l).popped ++ (run cfg st l).state.queue
        = st.queue ++ (run cfg st l).pushed) ∧
    (∀ (cfg : Config) (st : LoopState) (l : List LoopInput),
      List.Sublist (run cfg st l).written (run cfg st l).popped) ∧
    (∀ (cfg : Config) (st : LoopState) (l : List LoopInput),
      okOnly l = true →
      (run cfg st l).written = (run cfg st l).popped) :=
  ⟨run_queue, run_written_sublist, run_ok⟩

theorem c3_amended_fifo_witness :
    okOnly c1inputs = true ∧
    (run cfg0 st0 c1inputs).written = (run cfg0 st0 c1inputs).popped :=
  ⟨by decide, c3_amended_fifo.2.2 cfg0 st0 c1inputs (by decide)⟩

/-- C4 fails on the code: the emission sites await
`tokio::sync::mpsc::Sender::send`, which on a full channel with a live
receiver waits until capacity is available — the loop suspends rather than
dropping the value.  At the measurement channel's capacity (100 queued of
100) the awaited send waits; it does not deliver and does not error. -/
theorem c4_counterexample :
    mpscSend ⟨measChannelCapacity, measChannelCapacity, true⟩
      = SendOutcome.waitsForCapacity ∧
    mpscSend ⟨modeChannelCapacity, modeChannelCapacity, true⟩
      = SendOutcome.waitsForCapacity := by
  refine ⟨by decide, by decide⟩

/-- C4 amended: sending on a full channel whose receiver is alive suspends
the loop until capacity frees (it is not a drop); a value is discarded
without failing the loop only when the receiver has been dropped, in which
case the send resolves to an error that the code ignores. -/
theorem c4_amended_channel_send :
    (∀ ch : ChannelState, ch.receiverAlive = true → ch.capacity ≤ ch.queued →
      mpscSend ch = SendOutcome.waitsForCapacity) ∧
    (∀ ch : ChannelState, ch.receiverAlive = false →
      mpscSend ch = SendOutcome.closedError) := by
  constructor
  · intro ch h1 h2
    unfold mpscSend
    rw [if_neg (by simp [h1]), if_pos h2]
  · intro ch h1
    unfold mpscSend
    rw [if_pos h1]

theorem c4_amended_channel_send_witness :
    (⟨10, 10, true⟩ : ChannelState).receiverAlive = true ∧
    (⟨10, 10, true⟩ : ChannelState).capacity ≤ (⟨10, 10, true⟩ : ChannelState).queued ∧
    mpscSend ⟨10, 10, true⟩ = SendOutcome.waitsForCapacity ∧
    mpscSend ⟨10, 0, false⟩ = SendOutcome.closedError :=
  ⟨by decide, by decide,
   c4_amended_channel_send.1 ⟨10, 10, true⟩ (by decide) (by decide),
   c4_amended_channel_send.2 ⟨10, 0, false⟩ (by decide)⟩

/-- C8 fails on the code only in its clause that everything queued ahead is
written before the reset: a hard write error drops a queued command without
writing it.  Here the disconnect queues `SYST:LOC\n` then `*RST\n`; the
write of `SYST:LOC\n` fails with a hard error, so the run ends having
written `*RST\n` but never `SYST:LOC\n`. -/
theorem c8_counterexample :
    (run cfg0 st0m c8cex).exited = true ∧
    (run cfg0 st0m c8cex).written = ["*RST\n"] ∧
    "SYST:LOC\n" ∉ (run cfg0 st0m c8cex).written := by
  refine ⟨by decide, by decide, by decide⟩

/-- C8 amended: a disconnect request appends `SYST:LOC\n` directly followed
by `*RST\n` behind everything already queued; entries are drained strictly
from the front (popped ++ queue = initial ++ pushed), and in a run without
hard write errors the written sequence equals the popped sequence, so
`SYST:LOC\n` and all previously queued commands go on the wire before
`*RST\n`; the loop breaks only with the drop flag set, and when it breaks
out of a run started with the flag clear, `*RST\n` has actually been
written — release never happens on mere queueing. -/
theorem c8_shutdown_ordering :
    (∀ (cfg : Config) (st : LoopState), st.shuttingDown = false →
      (step cfg st LoopInput.shutdown).state.queue
          = st.queue ++ ["SYST:LOC\n", "*RST\n"] ∧
      (step cfg st LoopInput.shutdown).pushed = ["SYST:LOC\n", "*RST\n"]) ∧
    (∀ (cfg : Config) (st : LoopState) (l : List LoopInput),
      (run cfg st l).popped ++ (run cfg st l).state.queue
        = st.queue ++ (run cfg st l).pushed) ∧
    (∀ (cfg : Config) (st : LoopState) (l : List LoopInput),
      okOnly l = true → (run cfg st l).written = (run cfg st l).popped) ∧
    (∀ (cfg : Config) (st : LoopState) (l : List LoopInput),
      (run cfg st l).exited = true → (run cfg st l).state.dropSerial = true) ∧
    (∀ (cfg : Config) (st : LoopState) (l : List LoopInput),
      st.dropSerial = false → (run cfg st l).exited = true →
      "*RST\n" ∈ (run cfg st l).written) := by
  refine ⟨?_, run_queue, run_ok, ?_, run_rst⟩
  · intro cfg st h
    constructor <;> simp [step, h]
  · intro cfg st l h
    exact (run_exited_flags cfg st l h).2

theorem c8_shutdown_ordering_witness :
    st0m.shuttingDown = false ∧
    (step cfg0 st0m LoopInput.shutdown).state.queue
      = st0m.queue ++ ["SYST:LOC\n", "*RST\n"] ∧
    okOnly [LoopInput.shutdown, LoopInput.poll wEv, LoopInput.poll wEv] = true ∧
    (run cfg0 st0m [LoopInput.shutdown, LoopInput.poll wEv, LoopInput.poll wEv]).written
      = (run cfg0 st0m [LoopInput.shutdown, LoopInput.poll wEv, LoopInput.poll wEv]).popped ∧
    st0m.dropSerial = false ∧
    (run cfg0 st0m [LoopInput.shutdown, LoopInput.poll wEv, LoopInput.poll wEv]).exited = true ∧
    "*RST\n" ∈
      (run cfg0 st0m [LoopInput.shutdown, LoopInput.poll wEv, LoopInput.poll wEv]).written :=
  ⟨by decide,
   (c8_shutdown_ordering.1 cfg0 st0m (by decide)).1,
   by decide,
   c8_shutdown_ordering.2.2.1 cfg0 st0m _ (by decide),
   by decide,
   by decide,
   c8_shutdown_ordering.2.2.2.2 cfg0 st0m _ (by decide) (by decide)⟩


end RustyMeter
